import Mathlib

/-!
Shallow embedding of the face-landmark-tracker driver-safety application
(drowsiness state machine, phone-usage detector, audio alert arbitration),
translated from `src/drowsiness/detector.py`, `src/phone_detection/detector.py`,
`src/alerts/alert_system.py`, `src/app.py` and `src/config/settings.py`.
Python floats are modelled by `ℚ`; every score value reachable by the code is
a small multiple of 1/2, so rational arithmetic is exact for all the
operations and comparisons involved.  Euclidean distances are modelled over
`ℝ` via `Real.sqrt`.
-/

namespace Config

/-- Below this average EAR the eyes count as closed (`EAR_THRESHOLD = 0.21`). -/
def EAR_THRESHOLD : ℚ := 21/100

/-- Consecutive closed frames needed before drowsiness (`EAR_CONSEC_FRAMES = 30`). -/
def EAR_CONSEC_FRAMES : ℕ := 30

/-- Above this MAR the mouth counts as wide open (`MAR_THRESHOLD = 0.75`). -/
def MAR_THRESHOLD : ℚ := 3/4

/-- Consecutive wide-open-mouth frames for a yawn (`MAR_CONSEC_FRAMES = 20`). -/
def MAR_CONSEC_FRAMES : ℕ := 20

/-- Maximum drowsiness score (`DROWSINESS_SCORE_MAX = 100`). -/
def DROWSINESS_SCORE_MAX : ℚ := 100

/-- Per-frame score decay while alert (`DROWSINESS_SCORE_DECAY = 3.0`). -/
def DROWSINESS_SCORE_DECAY : ℚ := 3

/-- Score increase per eyes-closed frame (`DROWSINESS_SCORE_INCREMENT_EYES = 2.5`). -/
def DROWSINESS_SCORE_INCREMENT_EYES : ℚ := 5/2

/-- Score increase per yawning frame (`DROWSINESS_SCORE_INCREMENT_YAWN = 1.5`). -/
def DROWSINESS_SCORE_INCREMENT_YAWN : ℚ := 3/2

/-- Score at which the alert level becomes WARNING (`ALERT_LEVEL_WARNING = 35`). -/
def ALERT_LEVEL_WARNING : ℚ := 35

/-- Score at which the alert level becomes DANGER (`ALERT_LEVEL_DANGER = 65`). -/
def ALERT_LEVEL_DANGER : ℚ := 65

/-- Phone confidence threshold (`PHONE_DETECTION_THRESHOLD = 0.4`). -/
def PHONE_DETECTION_THRESHOLD : ℚ := 2/5

/-- Consecutive frames before confirming phone use (`PHONE_CONSEC_FRAMES = 60`). -/
def PHONE_CONSEC_FRAMES : ℕ := 60

/-- Seconds between regular beeps (`AUDIO_ALERT_COOLDOWN = 1.0`). -/
def AUDIO_ALERT_COOLDOWN : ℚ := 1

/-- Continuous alarm mode enabled (`CONTINUOUS_ALARM_ENABLED = True`). -/
def CONTINUOUS_ALARM_ENABLED : Bool := true

/-- Score at which the continuous alarm starts (`CONTINUOUS_ALARM_THRESHOLD = 70`). -/
def CONTINUOUS_ALARM_THRESHOLD : ℚ := 70

end Config

/-- Alert tier, the `"NORMAL" / "WARNING" / "DANGER"` strings of the source. -/
inductive AlertLevel where
  | NORMAL
  | WARNING
  | DANGER
deriving DecidableEq

/-- Eye state, the `"OPEN" / "CLOSED"` strings of the source. -/
inductive EyeState where
  | OPEN
  | CLOSED
deriving DecidableEq

namespace DrowsinessDetector

/-- Mutable state of `DrowsinessDetector` (`__init__`). -/
structure DState where
  eye_closure_counter : ℕ
  yawn_counter : ℕ
  drowsiness_score : ℚ
  is_drowsy : Bool
  is_yawning : Bool
  alert_level : AlertLevel
  total_eye_closures : ℕ
  total_yawns : ℕ
  face_detected : Bool
  no_face_counter : ℕ
  last_eye_state : EyeState
  blink_counter : ℕ
deriving DecidableEq

/-- Initial detector state (`__init__`: score starts at 0). -/
def initState : DState :=
  { eye_closure_counter := 0
    yawn_counter := 0
    drowsiness_score := 0
    is_drowsy := false
    is_yawning := false
    alert_level := AlertLevel.NORMAL
    total_eye_closures := 0
    total_yawns := 0
    face_detected := false
    no_face_counter := 0
    last_eye_state := EyeState.OPEN
    blink_counter := 0 }

/-- `reset()`: zero all counters and scores. -/
def reset (_s : DState) : DState :=
  { eye_closure_counter := 0
    yawn_counter := 0
    drowsiness_score := 0
    is_drowsy := false
    is_yawning := false
    alert_level := AlertLevel.NORMAL
    total_eye_closures := 0
    total_yawns := 0
    face_detected := false
    no_face_counter := 0
    last_eye_state := EyeState.OPEN
    blink_counter := 0 }

/-- One frame of input to `detect_drowsiness`: either no usable face
(fewer than 468 landmarks), or a face with the average EAR and the MAR that
the geometry code computes from the landmarks. -/
inductive FrameInput where
  | absent
  | present (ear : ℚ) (mar : ℚ)
deriving DecidableEq

/-- The per-frame result dictionary returned by `detect_drowsiness`
(the fields the claims are about). -/
structure DResult where
  ear : ℚ
  mar : ℚ
  eyes_closed : Bool
  yawning : Bool
  drowsiness_score : ℚ
  alert_level : AlertLevel
  eye_closure_counter : ℕ
  yawn_counter : ℕ
  total_eye_closures : ℕ
  total_yawns : ℕ
  face_detected : Bool
deriving DecidableEq

/-- `_get_default_result`: result returned when no face is detected.
Note the source returns the literal `0` for both consecutive counters here,
regardless of the stored counters. -/
def get_default_result (s : DState) : DResult :=
  { ear := 0
    mar := 0
    eyes_closed := false
    yawning := false
    drowsiness_score := s.drowsiness_score
    alert_level := s.alert_level
    eye_closure_counter := 0
    yawn_counter := 0
    total_eye_closures := s.total_eye_closures
    total_yawns := s.total_yawns
    face_detected := false }

/-- Eye-closure section of `detect_drowsiness` (lines 159-188): debounced
eyes-closed flag, counter update, prolonged-closure accounting, score
increase. Returns the new state and the local `eyes_closed`. -/
def eye_section (s : DState) (ear : ℚ) : DState × Bool :=
  if ear < Config.EAR_THRESHOLD then
    let c := s.eye_closure_counter + 1
    if c ≥ Config.EAR_CONSEC_FRAMES then
      let sc := min Config.DROWSINESS_SCORE_MAX
        (s.drowsiness_score + Config.DROWSINESS_SCORE_INCREMENT_EYES)
      ({ s with eye_closure_counter := c, is_drowsy := true, drowsiness_score := sc },
       true)
    else
      ({ s with eye_closure_counter := c }, false)
  else
    let t :=
      if s.eye_closure_counter ≥ Config.EAR_CONSEC_FRAMES then
        s.total_eye_closures + 1
      else s.total_eye_closures
    ({ s with total_eye_closures := t, eye_closure_counter := 0, is_drowsy := false },
     false)

/-- Yawn section of `detect_drowsiness` (lines 193-221): a yawn frame needs
a wide-open mouth AND open eyes; debounced flag, counter, accounting, score
increase. Returns the new state and the local `yawning`. -/
def yawn_section (s : DState) (ear mar : ℚ) : DState × Bool :=
  if mar > Config.MAR_THRESHOLD ∧ ear > Config.EAR_THRESHOLD then
    let y := s.yawn_counter + 1
    if y ≥ Config.MAR_CONSEC_FRAMES then
      let sc := min Config.DROWSINESS_SCORE_MAX
        (s.drowsiness_score + Config.DROWSINESS_SCORE_INCREMENT_YAWN)
      ({ s with yawn_counter := y, is_yawning := true, drowsiness_score := sc },
       true)
    else
      ({ s with yawn_counter := y }, false)
  else
    let t :=
      if s.yawn_counter ≥ Config.MAR_CONSEC_FRAMES then
        s.total_yawns + 1
      else s.total_yawns
    ({ s with total_yawns := t, yawn_counter := 0, is_yawning := false },
     false)

/-- Score decay section (lines 227-229): decay only when neither debounced
condition holds this frame. -/
def decay_section (s : DState) (eyes_closed yawning : Bool) : DState :=
  if eyes_closed = false ∧ yawning = false then
    { s with drowsiness_score := max 0 (s.drowsiness_score - Config.DROWSINESS_SCORE_DECAY) }
  else s

/-- Alert-level section (lines 234-239). -/
def level_section (s : DState) : DState :=
  if s.drowsiness_score ≥ Config.ALERT_LEVEL_DANGER then
    { s with alert_level := AlertLevel.DANGER }
  else if s.drowsiness_score ≥ Config.ALERT_LEVEL_WARNING then
    { s with alert_level := AlertLevel.WARNING }
  else
    { s with alert_level := AlertLevel.NORMAL }

/-- `detect_drowsiness`, as a transition on the detector state returning the
result dictionary.  The no-face branch (lines 124-136) decays the score and
zeroes the consecutive counters only after more than 3 consecutive absent
frames.  The face branch runs the eye, yawn, decay and alert-level sections
on the frame's average EAR and MAR. -/
def detect_drowsiness (s : DState) : FrameInput → DState × DResult
  | FrameInput.absent =>
      let n := s.no_face_counter + 1
      let s1 : DState := { s with face_detected := false, no_face_counter := n }
      let s2 : DState :=
        if n > 3 then
          { s1 with
              drowsiness_score := max 0 (s1.drowsiness_score - 10),
              alert_level := AlertLevel.NORMAL,
              eye_closure_counter := 0,
              yawn_counter := 0 }
        else s1
      (s2, get_default_result s2)
  | FrameInput.present ear mar =>
      let s0 : DState := { s with face_detected := true, no_face_counter := 0 }
      let current_eye_state :=
        if ear < Config.EAR_THRESHOLD then EyeState.CLOSED else EyeState.OPEN
      let es := eye_section s0 ear
      let s2 : DState := { es.1 with last_eye_state := current_eye_state }
      let ys := yawn_section s2 ear mar
      let s4 := decay_section ys.1 es.2 ys.2
      let s5 := level_section s4
      (s5,
       { ear := ear
         mar := mar
         eyes_closed := es.2
         yawning := ys.2
         drowsiness_score := s5.drowsiness_score
         alert_level := s5.alert_level
         eye_closure_counter := s5.eye_closure_counter
         yawn_counter := s5.yawn_counter
         total_eye_closures := s5.total_eye_closures
         total_yawns := s5.total_yawns
         face_detected := true })

/-- State after a sequence of frames. -/
def runD (s : DState) (l : List FrameInput) : DState :=
  l.foldl (fun s i => (detect_drowsiness s i).1) s

/-- The per-frame results along a sequence of frames. -/
def resultsD (s : DState) : List FrameInput → List DResult
  | [] => []
  | i :: rest => (detect_drowsiness s i).2 :: resultsD (detect_drowsiness s i).1 rest

end DrowsinessDetector

/-- Squared planar distance between two points (all inputs are rational). -/
def sqDist (p q : ℚ × ℚ) : ℚ := (p.1 - q.1)^2 + (p.2 - q.2)^2

/-- `scipy.spatial.distance.euclidean` on planar points. -/
noncomputable def euclidean (p q : ℚ × ℚ) : ℝ := Real.sqrt ((sqDist p q : ℚ) : ℝ)

namespace DrowsinessDetector

/-- `calculate_mouth_aspect_ratio` (lines 82-112): below 14 points return 0;
otherwise MAR = (‖p2−p10‖ + ‖p4−p8‖) / (2·‖p0−p1‖), and 0 on zero mouth
width.  The `try/except` of the source cannot fire in the embedding: the
function is total and every malformed input falls into a 0-returning guard. -/
noncomputable def calculate_mouth_aspect_ratio (mouth_landmarks : List (ℚ × ℚ)) : ℝ :=
  if mouth_landmarks.length < 14 then 0
  else
    let p := fun i => mouth_landmarks.getD i (0, 0)
    let vertical1 := euclidean (p 2) (p 10)
    let vertical2 := euclidean (p 4) (p 8)
    let horizontal := euclidean (p 0) (p 1)
    if horizontal = 0 then 0
    else (vertical1 + vertical2) / (2 * horizontal)

end DrowsinessDetector

/-- Face bounding box `(x1, y1, x2, y2)`. -/
structure Bbox where
  x1 : ℚ
  y1 : ℚ
  x2 : ℚ
  y2 : ℚ
deriving DecidableEq

namespace PhoneDetector

/-- Mutable state of `PhoneDetector` (`__init__`). -/
structure PState where
  phone_detected : Bool
  phone_detection_counter : ℕ
  total_phone_detections : ℕ
  current_phone_duration : ℕ
  longest_phone_duration : ℕ
  last_detection_time : ℚ
deriving DecidableEq

/-- Initial phone-detector state. -/
def initState : PState :=
  { phone_detected := false
    phone_detection_counter := 0
    total_phone_detections := 0
    current_phone_duration := 0
    longest_phone_duration := 0
    last_detection_time := 0 }

/-- `reset()`. -/
def reset (_s : PState) : PState :=
  { phone_detected := false
    phone_detection_counter := 0
    total_phone_detections := 0
    current_phone_duration := 0
    longest_phone_duration := 0
    last_detection_time := 0 }

/-- `is_hand_near_face` (lines 39-82): hand centre = mean of the 21 landmark
coordinates; the ratio of its distance to the face centre over the larger
face dimension must be below 2.0.  Returns `(is_near, distance_ratio)`. -/
noncomputable def is_hand_near_face (hand : List (ℚ × ℚ)) (face_bbox : Option Bbox) :
    Bool × ℝ :=
  if hand.length < 21 then (false, 0)
  else
    match face_bbox with
    | none => (false, 0)
    | some b =>
      let face_center_x := (b.x1 + b.x2) / 2
      let face_center_y := (b.y1 + b.y2) / 2
      let face_width := b.x2 - b.x1
      let face_height := b.y2 - b.y1
      let hand_x : ℚ := (hand.map Prod.fst).sum / hand.length
      let hand_y : ℚ := (hand.map Prod.snd).sum / hand.length
      let dist_to_face := euclidean (hand_x, hand_y) (face_center_x, face_center_y)
      let face_size := max face_width face_height
      let distance_ratio : ℝ :=
        if face_size > 0 then dist_to_face / (face_size : ℝ) else 999
      (decide (distance_ratio < 2), distance_ratio)

/-- `is_hand_elevated` (lines 84-108): wrist (landmark 0) above the face
bottom plus a tolerance of half the face height. -/
def is_hand_elevated (hand : List (ℚ × ℚ)) (face_bbox : Option Bbox) : Bool :=
  match face_bbox, hand with
  | some b, w :: _ =>
      let tolerance := (b.y2 - b.y1) * (1/2)
      decide (w.2 < b.y2 + tolerance)
  | _, _ => false

/-- `is_vertical_orientation` (lines 110-136): the wrist-to-middle-tip
vertical extent must beat 0.6 of the horizontal extent. -/
def is_vertical_orientation (hand : List (ℚ × ℚ)) : Bool :=
  if hand.length < 21 then false
  else
    let wrist := hand.getD 0 (0, 0)
    let middle_tip := hand.getD 12 (0, 0)
    let vertical_dist := |middle_tip.2 - wrist.2|
    let horizontal_dist := |middle_tip.1 - wrist.1|
    decide (vertical_dist > horizontal_dist * (3/5))

/-- One iteration of the hand loop of `detect_phone_usage` (lines 169-189):
a hand that passes a check adds that check's weight (0.5 near face,
0.3 elevated, 0.2 vertical) to the shared accumulator; empty hands are
skipped (`continue`). -/
noncomputable def hand_confidence_update (face_bbox : Option Bbox) (confidence : ℚ)
    (hand : List (ℚ × ℚ)) : ℚ :=
  if hand.isEmpty then confidence
  else
    let c1 := if (is_hand_near_face hand face_bbox).1 then confidence + 1/2 else confidence
    let c2 := if is_hand_elevated hand face_bbox then c1 + 3/10 else c1
    if is_vertical_orientation hand then c2 + 1/5 else c2

/-- The hand loop of `detect_phone_usage`: `confidence` starts at 0 and the
accumulator is shared by all hands of the frame. -/
noncomputable def hands_confidence (face_bbox : Option Bbox)
    (hands : List (List (ℚ × ℚ))) : ℚ :=
  hands.foldl (hand_confidence_update face_bbox) 0

/-- `_get_result`: the result dictionary (the fields the claims are about). -/
structure PResult where
  phone_detected : Bool
  confidence : ℚ
  phone_detection_counter : ℕ
  total_phone_detections : ℕ
  current_duration : ℕ
  longest_duration : ℕ
deriving DecidableEq

/-- `_get_result(detected, confidence, reasons, face_landmarks)`. -/
def get_result (s : PState) (detected : Bool) (confidence : ℚ) : PResult :=
  { phone_detected := detected
    confidence := confidence
    phone_detection_counter := s.phone_detection_counter
    total_phone_detections := s.total_phone_detections
    current_duration := s.current_phone_duration
    longest_duration := s.longest_phone_duration }

/-- `detect_phone_usage` (lines 138-217) as a transition on the detector
state: the zero-hands branch resets counter, duration and the detected flag
with no session accounting; with hands present the summed confidence is
compared against the threshold, the dwell counter gates the detected flag,
and the completed-session counter is incremented only on the
below-threshold exit branch. -/
noncomputable def detect_phone_usage (s : PState) (hands_detected : ℕ)
    (hand_landmarks_list : List (List (ℚ × ℚ))) (face_bbox : Option Bbox) :
    PState × PResult :=
  if hands_detected = 0 ∨ hand_landmarks_list.isEmpty then
    let s1 := { s with
      phone_detection_counter := 0, current_phone_duration := 0, phone_detected := false }
    (s1, get_result s1 false 0)
  else
    let confidence := hands_confidence face_bbox hand_landmarks_list
    if confidence ≥ Config.PHONE_DETECTION_THRESHOLD then
      let c := s.phone_detection_counter + 1
      if c ≥ Config.PHONE_CONSEC_FRAMES then
        let d := s.current_phone_duration + 1
        let lg := if d > s.longest_phone_duration then d else s.longest_phone_duration
        let s1 := { s with
          phone_detection_counter := c, phone_detected := true,
          current_phone_duration := d, longest_phone_duration := lg }
        (s1, get_result s1 true confidence)
      else
        let s1 := { s with phone_detection_counter := c }
        (s1, get_result s1 false confidence)
    else
      let t :=
        if s.phone_detection_counter ≥ Config.PHONE_CONSEC_FRAMES then
          s.total_phone_detections + 1
        else s.total_phone_detections
      let s1 := { s with
        total_phone_detections := t, phone_detection_counter := 0,
        phone_detected := false, current_phone_duration := 0 }
      (s1, get_result s1 false confidence)

/-- One frame of input to the phone detector. -/
structure PFrame where
  hands_detected : ℕ
  hand_landmarks_list : List (List (ℚ × ℚ))
  face_bbox : Option Bbox

/-- State after a sequence of phone-detector frames. -/
noncomputable def runP (s : PState) (l : List PFrame) : PState :=
  l.foldl
    (fun s f => (detect_phone_usage s f.hands_detected f.hand_landmarks_list f.face_bbox).1) s

end PhoneDetector

namespace AlertSystem

/-- Mutable state of `AlertSystem`: the shared cooldown clock, the
continuous-alarm flag, and whether audio and the two sounds initialised. -/
structure AState where
  last_audio_alert_time : ℚ
  audio_initialized : Bool
  continuous_alarm_active : Bool
  alarm_start_time : ℚ
  beep_sound : Bool
  alarm_sound : Bool
deriving DecidableEq

/-- `play_alert(alert_level, drowsiness_score)` (lines 111-164), with the
wall clock passed in as `now`.  A score at or above the continuous-alarm
threshold takes the alarm branch (0.5 s gate on the shared clock); otherwise
beeps are gated by `AUDIO_ALERT_COOLDOWN` on the same clock.  Returns the
new state and whether a sound was played. -/
def play_alert (s : AState) (alert_level : AlertLevel) (drowsiness_score : ℚ)
    (now : ℚ) : AState × Bool :=
  if s.audio_initialized = false then (s, false)
  else if Config.CONTINUOUS_ALARM_ENABLED = true ∧
      drowsiness_score ≥ Config.CONTINUOUS_ALARM_THRESHOLD then
    let s1 :=
      if s.continuous_alarm_active = false then
        { s with continuous_alarm_active := true, alarm_start_time := now }
      else s
    if s1.alarm_sound = true ∧ now - s1.last_audio_alert_time ≥ 1/2 then
      ({ s1 with last_audio_alert_time := now }, true)
    else (s1, false)
  else
    let s1 :=
      if s.continuous_alarm_active = true then
        { s with continuous_alarm_active := false }
      else s
    if now - s1.last_audio_alert_time < Config.AUDIO_ALERT_COOLDOWN then (s1, false)
    else if alert_level = AlertLevel.DANGER ∧ s1.beep_sound = true then
      ({ s1 with last_audio_alert_time := now }, true)
    else if alert_level = AlertLevel.WARNING ∧ s1.beep_sound = true then
      ({ s1 with last_audio_alert_time := now }, true)
    else (s1, false)

/-- `trigger_alert(drowsiness_data)` (lines 314-326): forwards to
`play_alert` only for WARNING/DANGER or a score at the continuous-alarm
threshold. -/
def trigger_alert (s : AState) (alert_level : AlertLevel) (drowsiness_score : ℚ)
    (now : ℚ) : AState × Bool :=
  if (alert_level = AlertLevel.WARNING ∨ alert_level = AlertLevel.DANGER) ∨
      drowsiness_score ≥ Config.CONTINUOUS_ALARM_THRESHOLD then
    play_alert s alert_level drowsiness_score now
  else (s, false)

end AlertSystem

namespace DriverSafetyApp

/-- The phone-alert call in `process_frame` (src/app.py): when a phone is
detected the app fires
`alert_system.trigger_alert({alert_level: DANGER, drowsiness_score: 100})`
on the same `AlertSystem` instance that serves the drowsiness alerts. -/
def phone_alert (s : AlertSystem.AState) (now : ℚ) : AlertSystem.AState × Bool :=
  AlertSystem.trigger_alert s AlertLevel.DANGER 100 now

end DriverSafetyApp

namespace DrowsinessDetector

/-- A frame of average EAR 0.15 (closed eyes), MAR 0. -/
def closedFrame : FrameInput := FrameInput.present (15/100) 0

/-- A frame of average EAR 0.30 (open eyes), MAR 0. -/
def openFrame : FrameInput := FrameInput.present (3/10) 0

/-- Thirty consecutive closed-eye frames: the EAR sequence `[0.15]*30`. -/
def c2Closed : List FrameInput :=
  [closedFrame, closedFrame, closedFrame, closedFrame, closedFrame,
   closedFrame, closedFrame, closedFrame, closedFrame, closedFrame,
   closedFrame, closedFrame, closedFrame, closedFrame, closedFrame,
   closedFrame, closedFrame, closedFrame, closedFrame, closedFrame,
   closedFrame, closedFrame, closedFrame, closedFrame, closedFrame,
   closedFrame, closedFrame, closedFrame, closedFrame, closedFrame]

/-- The EAR sequence `[0.15]*30 ++ [0.30]` of the end-to-end scenario. -/
def c2All : List FrameInput := c2Closed ++ [openFrame]

/-- Default result used with `List.getD` when indexing result traces. -/
def dRes0 : DResult := get_default_result initState

/-- A frame whose average EAR is below `EAR_THRESHOLD` (eyes closed). -/
def closedInput : FrameInput → Prop
  | FrameInput.absent => False
  | FrameInput.present ear _ => ear < Config.EAR_THRESHOLD

/-- A frame whose average EAR is at or above `EAR_THRESHOLD` (eyes open). -/
def openInput : FrameInput → Prop
  | FrameInput.absent => False
  | FrameInput.present ear _ => Config.EAR_THRESHOLD ≤ ear

end DrowsinessDetector

/-- Concrete face-absent state used to exercise the absence branch: five
consecutive absent frames already seen, mid-count debounce counters. -/
def s6b : DrowsinessDetector.DState :=
  { DrowsinessDetector.initState with
      no_face_counter := 5, drowsiness_score := 50,
      eye_closure_counter := 7, yawn_counter := 4 }

/-- Concrete state one frame short of the eye debounce, with a mid-range
score. -/
def s7 : DrowsinessDetector.DState :=
  { DrowsinessDetector.initState with eye_closure_counter := 29, drowsiness_score := 50 }

/-- Concrete face bounding box `(0, 0, 2, 2)`: centre `(1, 1)`, size 2. -/
def box0 : Bbox := { x1 := 0, y1 := 0, x2 := 2, y2 := 2 }

/-- A 21-landmark hand held at the face: every point at `(1, 1)` except the
middle-finger tip (index 12) at `(1, 0)`, so all three heuristics fire. -/
def nearHand : List (ℚ × ℚ) :=
  [(1, 1), (1, 1), (1, 1), (1, 1), (1, 1), (1, 1), (1, 1), (1, 1), (1, 1), (1, 1),
   (1, 1), (1, 1), (1, 0), (1, 1), (1, 1), (1, 1), (1, 1), (1, 1), (1, 1), (1, 1),
   (1, 1)]

/-- A 21-landmark hand low and far from the face: every point at `(1, 5)`,
so no heuristic fires. -/
def farHand : List (ℚ × ℚ) :=
  [(1, 5), (1, 5), (1, 5), (1, 5), (1, 5), (1, 5), (1, 5), (1, 5), (1, 5), (1, 5),
   (1, 5), (1, 5), (1, 5), (1, 5), (1, 5), (1, 5), (1, 5), (1, 5), (1, 5), (1, 5),
   (1, 5)]

/-- Eleven ordered mouth points with nonzero width 2 and vertical gaps 3+3:
enough for the claimed 8-point minimum, below the code's 14-point guard. -/
def mar11 : List (ℚ × ℚ) :=
  [(0, 0), (2, 0), (0, 5), (0, 0), (1, 5), (0, 0), (0, 0), (0, 0), (1, 2), (0, 0),
   (0, 2)]

/-- The same mouth extended to 14 points, meeting the code's guard. -/
def mar14 : List (ℚ × ℚ) :=
  [(0, 0), (2, 0), (0, 5), (0, 0), (1, 5), (0, 0), (0, 0), (0, 0), (1, 2), (0, 0),
   (0, 2), (0, 0), (0, 0), (0, 0)]

/-- A fully initialised alert system that has never fired. -/
def a0 : AlertSystem.AState :=
  { last_audio_alert_time := 0, audio_initialized := true,
    continuous_alarm_active := false, alarm_start_time := 0,
    beep_sound := true, alarm_sound := true }

/-- A phone-detector state whose dwell counter has reached
`PHONE_CONSEC_FRAMES`, with nonzero statistics. -/
def pS60 : PhoneDetector.PState :=
  { phone_detected := true, phone_detection_counter := 60,
    total_phone_detections := 5, current_phone_duration := 7,
    longest_phone_duration := 9, last_detection_time := 0 }

namespace DrowsinessDetector

lemma eye_section_score (s : DState) (ear : ℚ)
    (h0 : 0 ≤ s.drowsiness_score) (h1 : s.drowsiness_score ≤ 100) :
    0 ≤ (eye_section s ear).1.drowsiness_score ∧
      (eye_section s ear).1.drowsiness_score ≤ 100 := by
  unfold eye_section
  simp only [Config.DROWSINESS_SCORE_MAX, Config.DROWSINESS_SCORE_INCREMENT_EYES]
  split_ifs <;> refine ⟨?_, ?_⟩ <;>
    first
      | linarith
      | (simp [le_min_iff, min_le_iff, le_max_iff, max_le_iff]; linarith)
      | simp [le_min_iff, min_le_iff, le_max_iff, max_le_iff]

lemma yawn_section_score (s : DState) (ear mar : ℚ)
    (h0 : 0 ≤ s.drowsiness_score) (h1 : s.drowsiness_score ≤ 100) :
    0 ≤ (yawn_section s ear mar).1.drowsiness_score ∧
      (yawn_section s ear mar).1.drowsiness_score ≤ 100 := by
  unfold yawn_section
  simp only [Config.DROWSINESS_SCORE_MAX, Config.DROWSINESS_SCORE_INCREMENT_YAWN]
  split_ifs <;> refine ⟨?_, ?_⟩ <;>
    first
      | linarith
      | (simp [le_min_iff, min_le_iff, le_max_iff, max_le_iff]; linarith)
      | simp [le_min_iff, min_le_iff, le_max_iff, max_le_iff]

lemma decay_section_score (s : DState) (a b : Bool)
    (h0 : 0 ≤ s.drowsiness_score) (h1 : s.drowsiness_score ≤ 100) :
    0 ≤ (decay_section s a b).drowsiness_score ∧
      (decay_section s a b).drowsiness_score ≤ 100 := by
  unfold decay_section
  simp only [Config.DROWSINESS_SCORE_DECAY]
  split_ifs <;> refine ⟨?_, ?_⟩ <;>
    first
      | linarith
      | (simp [le_min_iff, min_le_iff, le_max_iff, max_le_iff]; linarith)
      | simp [le_min_iff, min_le_iff, le_max_iff, max_le_iff]

lemma level_section_score (s : DState) :
    (level_section s).drowsiness_score = s.drowsiness_score := by
  unfold level_section
  split_ifs <;> rfl

lemma step_score_bounds (s : DState) (i : FrameInput)
    (h0 : 0 ≤ s.drowsiness_score) (h1 : s.drowsiness_score ≤ 100) :
    0 ≤ (detect_drowsiness s i).1.drowsiness_score ∧
      (detect_drowsiness s i).1.drowsiness_score ≤ 100 := by
  cases i with
  | absent =>
      simp only [detect_drowsiness]
      split_ifs <;> refine ⟨?_, ?_⟩ <;>
        first
          | linarith
          | (simp [le_max_iff, max_le_iff]; linarith)
          | simp [le_max_iff, max_le_iff]
  | present ear mar =>
      simp only [detect_drowsiness, level_section_score]
      have hb1 := eye_section_score
        { s with face_detected := true, no_face_counter := 0 } ear h0 h1
      have hb2 := yawn_section_score
        { (eye_section { s with face_detected := true, no_face_counter := 0 } ear).1 with
            last_eye_state := if ear < Config.EAR_THRESHOLD then EyeState.CLOSED else EyeState.OPEN }
        ear mar hb1.1 hb1.2
      exact decay_section_score _ _ _ hb2.1 hb2.2

end DrowsinessDetector

namespace DrowsinessDetector

lemma run_score_bounds (l : List FrameInput) :
    ∀ s : DState, 0 ≤ s.drowsiness_score → s.drowsiness_score ≤ 100 →
      0 ≤ (runD s l).drowsiness_score ∧ (runD s l).drowsiness_score ≤ 100 := by
  induction l with
  | nil => intro s h0 h1; exact ⟨h0, h1⟩
  | cons i rest ih =>
      intro s h0 h1
      have hb := step_score_bounds s i h0 h1
      simpa [runD] using ih (detect_drowsiness s i).1 hb.1 hb.2

end DrowsinessDetector

/-- C1: for every sequence of per-frame updates (face present or absent, any
EAR/MAR values), the drowsiness score stays within `[0, SCORE_MAX]` after
every update, starting from the initial state. -/
theorem claim_C1 (l : List DrowsinessDetector.FrameInput) :
    0 ≤ (DrowsinessDetector.runD DrowsinessDetector.initState l).drowsiness_score ∧
      (DrowsinessDetector.runD DrowsinessDetector.initState l).drowsiness_score ≤
        Config.DROWSINESS_SCORE_MAX := by
  have h := DrowsinessDetector.run_score_bounds l DrowsinessDetector.initState
    (by norm_num [DrowsinessDetector.initState]) (by norm_num [DrowsinessDetector.initState])
  simpa [Config.DROWSINESS_SCORE_MAX] using h

set_option maxHeartbeats 2000000 in
open DrowsinessDetector in
/-- C2 counterexample: on the EAR sequence `[0.15]*30 + [0.30]` the score at
frame 30 is 2.5 (one increment), not 75.0 as the claim states: the increment
applies only on frames where the consecutive-closure counter has already
reached `EAR_CONSEC_FRAMES`. -/
theorem claim_C2_counterexample :
    ((resultsD initState c2All).getD 29 dRes0).drowsiness_score = 5/2 ∧
      (5/2 : ℚ) ≠ 75 := by
  constructor
  · norm_num [resultsD, runD, detect_drowsiness, eye_section, yawn_section, decay_section,
      level_section, initState, get_default_result, c2All, c2Closed, closedFrame, openFrame,
      dRes0, Config.EAR_THRESHOLD, Config.EAR_CONSEC_FRAMES, Config.MAR_THRESHOLD,
      Config.MAR_CONSEC_FRAMES, Config.DROWSINESS_SCORE_MAX, Config.DROWSINESS_SCORE_DECAY,
      Config.DROWSINESS_SCORE_INCREMENT_EYES, Config.DROWSINESS_SCORE_INCREMENT_YAWN,
      Config.ALERT_LEVEL_WARNING, Config.ALERT_LEVEL_DANGER]
  · norm_num

set_option maxHeartbeats 4000000 in
open DrowsinessDetector in
/-- C2 (amended): on the EAR sequence `[0.15]*30 + [0.30]` with
`EAR_THRESHOLD=0.21, EAR_CONSEC_FRAMES=30, SCORE_INC_EYES=2.5`, `eyes_closed`
is false on frames 1-29 and on the open frame 31, true exactly at frame 30;
the score at frame 30 is 2.5 (a single increment of `SCORE_INC_EYES`, applied
only once the 30-frame debounce is met, not 30 accumulated increments); and
`total_eye_closures = 1` immediately after frame 31 (the open frame). -/
theorem claim_C2 :
    (((resultsD initState c2All).take 29).all (fun r => !r.eyes_closed) = true) ∧
    ((resultsD initState c2All).getD 29 dRes0).eyes_closed = true ∧
    ((resultsD initState c2All).getD 29 dRes0).drowsiness_score = 5/2 ∧
    ((resultsD initState c2All).getD 30 dRes0).eyes_closed = false ∧
    (runD initState c2All).total_eye_closures = 1 := by
  norm_num [resultsD, runD, detect_drowsiness, eye_section, yawn_section, decay_section,
    level_section, initState, get_default_result, c2All, c2Closed, closedFrame, openFrame,
    dRes0, Config.EAR_THRESHOLD, Config.EAR_CONSEC_FRAMES, Config.MAR_THRESHOLD,
    Config.MAR_CONSEC_FRAMES, Config.DROWSINESS_SCORE_MAX, Config.DROWSINESS_SCORE_DECAY,
    Config.DROWSINESS_SCORE_INCREMENT_EYES, Config.DROWSINESS_SCORE_INCREMENT_YAWN,
    Config.ALERT_LEVEL_WARNING, Config.ALERT_LEVEL_DANGER]

namespace DrowsinessDetector

lemma runD_nil (s : DState) : runD s [] = s := rfl

lemma runD_cons (s : DState) (i : FrameInput) (l : List FrameInput) :
    runD s (i :: l) = runD (detect_drowsiness s i).1 l := rfl

lemma level_section_ecc (s : DState) :
    (level_section s).eye_closure_counter = s.eye_closure_counter := by
  unfold level_section
  split_ifs <;> rfl

lemma level_section_tec (s : DState) :
    (level_section s).total_eye_closures = s.total_eye_closures := by
  unfold level_section
  split_ifs <;> rfl

lemma level_section_tyawn (s : DState) :
    (level_section s).total_yawns = s.total_yawns := by
  unfold level_section
  split_ifs <;> rfl

lemma decay_section_ecc (s : DState) (a b : Bool) :
    (decay_section s a b).eye_closure_counter = s.eye_closure_counter := by
  unfold decay_section
  split_ifs <;> rfl

lemma decay_section_tec (s : DState) (a b : Bool) :
    (decay_section s a b).total_eye_closures = s.total_eye_closures := by
  unfold decay_section
  split_ifs <;> rfl

lemma decay_section_tyawn (s : DState) (a b : Bool) :
    (decay_section s a b).total_yawns = s.total_yawns := by
  unfold decay_section
  split_ifs <;> rfl

lemma yawn_section_ecc (s : DState) (ear mar : ℚ) :
    (yawn_section s ear mar).1.eye_closure_counter = s.eye_closure_counter := by
  simp only [yawn_section]
  split_ifs <;> rfl

lemma yawn_section_tec (s : DState) (ear mar : ℚ) :
    (yawn_section s ear mar).1.total_eye_closures = s.total_eye_closures := by
  simp only [yawn_section]
  split_ifs <;> rfl

lemma eye_section_closed (s : DState) (ear : ℚ) (h : ear < Config.EAR_THRESHOLD) :
    (eye_section s ear).1.eye_closure_counter = s.eye_closure_counter + 1 ∧
    (eye_section s ear).1.total_eye_closures = s.total_eye_closures ∧
    (eye_section s ear).2 =
      decide (Config.EAR_CONSEC_FRAMES ≤ s.eye_closure_counter + 1) := by
  simp only [eye_section]
  rw [if_pos h]
  split_ifs with h2 <;> simp [h2, ge_iff_le] <;> omega

lemma eye_section_open (s : DState) (ear : ℚ) (h : Config.EAR_THRESHOLD ≤ ear) :
    (eye_section s ear).1.eye_closure_counter = 0 ∧
    (eye_section s ear).1.total_eye_closures =
      (if Config.EAR_CONSEC_FRAMES ≤ s.eye_closure_counter then s.total_eye_closures + 1
       else s.total_eye_closures) ∧
    (eye_section s ear).2 = false := by
  simp only [eye_section]
  rw [if_neg (not_lt.mpr h)]
  split_ifs with h2 <;> simp [h2, ge_iff_le] <;> omega

lemma step_present_fst (s : DState) (ear mar : ℚ) :
    (detect_drowsiness s (FrameInput.present ear mar)).1 =
      level_section (decay_section
        (yawn_section
          { (eye_section { s with face_detected := true, no_face_counter := 0 } ear).1 with
              last_eye_state :=
                if ear < Config.EAR_THRESHOLD then EyeState.CLOSED else EyeState.OPEN }
          ear mar).1
        (eye_section { s with face_detected := true, no_face_counter := 0 } ear).2
        (yawn_section
          { (eye_section { s with face_detected := true, no_face_counter := 0 } ear).1 with
              last_eye_state :=
                if ear < Config.EAR_THRESHOLD then EyeState.CLOSED else EyeState.OPEN }
          ear mar).2) := rfl

lemma step_present_snd_eyes (s : DState) (ear mar : ℚ) :
    (detect_drowsiness s (FrameInput.present ear mar)).2.eyes_closed =
      (eye_section { s with face_detected := true, no_face_counter := 0 } ear).2 := rfl

lemma step_closed (s : DState) (ear mar : ℚ) (h : ear < Config.EAR_THRESHOLD) :
    (detect_drowsiness s (FrameInput.present ear mar)).1.eye_closure_counter =
        s.eye_closure_counter + 1 ∧
    (detect_drowsiness s (FrameInput.present ear mar)).1.total_eye_closures =
        s.total_eye_closures ∧
    (detect_drowsiness s (FrameInput.present ear mar)).2.eyes_closed =
        decide (Config.EAR_CONSEC_FRAMES ≤ s.eye_closure_counter + 1) := by
  have he := eye_section_closed { s with face_detected := true, no_face_counter := 0 } ear h
  refine ⟨?_, ?_, ?_⟩
  · rw [step_present_fst, level_section_ecc, decay_section_ecc, yawn_section_ecc]
    simpa using he.1
  · rw [step_present_fst, level_section_tec, decay_section_tec, yawn_section_tec]
    simpa using he.2.1
  · rw [step_present_snd_eyes]
    simpa using he.2.2

lemma step_open (s : DState) (ear mar : ℚ) (h : Config.EAR_THRESHOLD ≤ ear) :
    (detect_drowsiness s (FrameInput.present ear mar)).2.eyes_closed = false ∧
    (detect_drowsiness s (FrameInput.present ear mar)).1.eye_closure_counter = 0 ∧
    (detect_drowsiness s (FrameInput.present ear mar)).1.total_eye_closures =
      (if Config.EAR_CONSEC_FRAMES ≤ s.eye_closure_counter then s.total_eye_closures + 1
       else s.total_eye_closures) := by
  have he := eye_section_open { s with face_detected := true, no_face_counter := 0 } ear h
  refine ⟨?_, ?_, ?_⟩
  · rw [step_present_snd_eyes]
    simpa using he.2.2
  · rw [step_present_fst, level_section_ecc, decay_section_ecc, yawn_section_ecc]
    simpa using he.1
  · rw [step_present_fst, level_section_tec, decay_section_tec, yawn_section_tec]
    simpa using he.2.1

end DrowsinessDetector

namespace DrowsinessDetector

lemma resultsD_nil (s : DState) : resultsD s [] = [] := rfl

lemma resultsD_cons (s : DState) (i : FrameInput) (l : List FrameInput) :
    resultsD s (i :: l) =
      (detect_drowsiness s i).2 :: resultsD (detect_drowsiness s i).1 l := rfl

lemma resultsD_length (s : DState) (l : List FrameInput) :
    (resultsD s l).length = l.length := by
  induction l generalizing s with
  | nil => rfl
  | cons i rest ih => simp [resultsD_cons, ih]

lemma resultsD_append (s : DState) (l1 l2 : List FrameInput) :
    resultsD s (l1 ++ l2) = resultsD s l1 ++ resultsD (runD s l1) l2 := by
  induction l1 generalizing s with
  | nil => simp [resultsD_nil, runD_nil]
  | cons i rest ih => simp [resultsD_cons, runD_cons, ih]

lemma run_closed (l : List FrameInput) :
    (∀ i ∈ l, closedInput i) → ∀ s : DState,
      (runD s l).eye_closure_counter = s.eye_closure_counter + l.length ∧
      (runD s l).total_eye_closures = s.total_eye_closures ∧
      ∀ k, k < l.length → ((resultsD s l).getD k dRes0).eyes_closed =
        decide (Config.EAR_CONSEC_FRAMES ≤ s.eye_closure_counter + k + 1) := by
  induction l with
  | nil =>
      intro _ s
      simp [runD_nil, resultsD_nil]
  | cons i rest ih =>
      intro hcl s
      have hhd := hcl i (List.mem_cons_self i rest)
      obtain ⟨e, m⟩ : ∃ e m, i = FrameInput.present e m ∧ e < Config.EAR_THRESHOLD := by
        cases i with
        | absent => exact absurd hhd (by simp [closedInput])
        | present e m => exact ⟨e, m, rfl, hhd⟩
      obtain ⟨m, rfl, he⟩ := m
      have hstep := step_closed s e m he
      have hrest := ih (fun j hj => hcl j (List.mem_cons_of_mem _ hj))
        (detect_drowsiness s (FrameInput.present e m)).1
      refine ⟨?_, ?_, ?_⟩
      · rw [runD_cons, hrest.1, hstep.1]
        simp [List.length_cons]
        omega
      · rw [runD_cons, hrest.2.1, hstep.2.1]
      · intro k hk
        cases k with
        | zero =>
            simpa [resultsD_cons] using hstep.2.2
        | succ k =>
            have hk2 : k < rest.length := by
              simpa [List.length_cons] using hk
            have hres := hrest.2.2 k hk2
            rw [hstep.1] at hres
            have harith : s.eye_closure_counter + 1 + k + 1 =
                s.eye_closure_counter + (k + 1) + 1 := by omega
            rw [harith] at hres
            simpa [resultsD_cons] using hres

end DrowsinessDetector

namespace DrowsinessDetector

lemma runD_append (s : DState) (l1 l2 : List FrameInput) :
    runD s (l1 ++ l2) = runD (runD s l1) l2 := by
  simp [runD, List.foldl_append]

end DrowsinessDetector

open DrowsinessDetector in
/-- C4: from the reset (initial) state, `EAR_CONSEC_FRAMES - 1` consecutive
closed-eye frames followed by one open-eye frame never set `eyes_closed` and
never increment `total_eye_closures`; exactly `EAR_CONSEC_FRAMES` consecutive
closed-eye frames set `eyes_closed` on the threshold-th frame. -/
theorem claim_C4 (l : List FrameInput) (hcl : ∀ i ∈ l, closedInput i) :
    (l.length = Config.EAR_CONSEC_FRAMES - 1 →
      ∀ op, openInput op →
        (∀ r ∈ resultsD initState (l ++ [op]), r.eyes_closed = false) ∧
        (runD initState (l ++ [op])).total_eye_closures = 0) ∧
    (l.length = Config.EAR_CONSEC_FRAMES →
      ((resultsD initState l).getD (Config.EAR_CONSEC_FRAMES - 1) dRes0).eyes_closed
        = true) := by
  have base := run_closed l hcl initState
  have hcc : initState.eye_closure_counter = 0 := rfl
  have htc : initState.total_eye_closures = 0 := rfl
  constructor
  · intro hlen op hop
    obtain ⟨e, m⟩ : ∃ e m, op = FrameInput.present e m ∧ Config.EAR_THRESHOLD ≤ e := by
      cases op with
      | absent => exact absurd hop (by simp [openInput])
      | present e m => exact ⟨e, m, rfl, hop⟩
    obtain ⟨m, rfl, he⟩ := m
    have hcnt : (runD initState l).eye_closure_counter = 29 := by
      rw [base.1, hcc]
      simpa [Config.EAR_CONSEC_FRAMES] using hlen
    have hstep := step_open (runD initState l) e m he
    constructor
    · intro r hr
      rw [resultsD_append, resultsD_cons, resultsD_nil] at hr
      rcases List.mem_append.mp hr with hr1 | hr2
      · obtain ⟨k, hk, hke⟩ := List.mem_iff_getElem.mp hr1
        have hk2 : k < l.length := by
          simpa [resultsD_length] using hk
        have := base.2.2 k hk2
        rw [List.getD_eq_getElem _ dRes0 hk, hke] at this
        rw [this, hcc]
        simp only [decide_eq_false_iff_not, not_le, Config.EAR_CONSEC_FRAMES]
        have hk3 : k < 29 := by
          rw [hlen] at hk2
          simpa [Config.EAR_CONSEC_FRAMES] using hk2
        omega
      · simp only [List.mem_singleton] at hr2
        rw [hr2]
        exact hstep.1
    · rw [runD_append]
      have hne : ¬ (Config.EAR_CONSEC_FRAMES ≤ (runD initState l).eye_closure_counter) := by
        rw [hcnt]
        simp [Config.EAR_CONSEC_FRAMES]
      calc (runD (runD initState l) [FrameInput.present e m]).total_eye_closures
          = (detect_drowsiness (runD initState l) (FrameInput.present e m)).1.total_eye_closures := by
            rw [runD_cons, runD_nil]
        _ = (runD initState l).total_eye_closures := by rw [hstep.2.2, if_neg hne]
        _ = 0 := by rw [base.2.1, htc]
  · intro hlen
    have h29 : Config.EAR_CONSEC_FRAMES - 1 < l.length := by
      rw [hlen]
      simp [Config.EAR_CONSEC_FRAMES]
    have := base.2.2 (Config.EAR_CONSEC_FRAMES - 1) h29
    rw [this, hcc]
    simp [Config.EAR_CONSEC_FRAMES]

open DrowsinessDetector in
/-- C4 witness: the debounce scenario at `EAR=0.15` closed frames and an
`EAR=0.30` open frame, from the initial state. -/
theorem claim_C4_witness :
    (runD initState (List.replicate 29 closedFrame ++ [openFrame])).total_eye_closures
      = 0 := by
  have hcl : ∀ i ∈ List.replicate 29 closedFrame, closedInput i := by
    intro i hi
    rw [List.eq_of_mem_replicate hi]
    norm_num [closedInput, closedFrame, Config.EAR_THRESHOLD]
  have hop : openInput openFrame := by
    norm_num [openInput, openFrame, Config.EAR_THRESHOLD]
  exact ((claim_C4 (List.replicate 29 closedFrame) hcl).1
    (by norm_num [Config.EAR_CONSEC_FRAMES]) openFrame hop).2

open DrowsinessDetector in
/-- C6: with the face absent, the first 3 consecutive absent frames leave the
score and the in-progress debounce counters untouched; from the 4th
consecutive absent frame on, the score is decayed by the fixed absent-decay
amount 10 (clamped at 0), the alert level is forced to NORMAL, and both
consecutive-frame counters are zeroed. -/
theorem claim_C6 (s : DState) :
    (s.no_face_counter + 1 ≤ 3 →
      (detect_drowsiness s FrameInput.absent).1.drowsiness_score = s.drowsiness_score ∧
      (detect_drowsiness s FrameInput.absent).1.eye_closure_counter = s.eye_closure_counter ∧
      (detect_drowsiness s FrameInput.absent).1.yawn_counter = s.yawn_counter) ∧
    (3 < s.no_face_counter + 1 →
      (detect_drowsiness s FrameInput.absent).1.drowsiness_score =
        max 0 (s.drowsiness_score - 10) ∧
      (detect_drowsiness s FrameInput.absent).1.alert_level = AlertLevel.NORMAL ∧
      (detect_drowsiness s FrameInput.absent).1.eye_closure_counter = 0 ∧
      (detect_drowsiness s FrameInput.absent).1.yawn_counter = 0) := by
  constructor
  · intro h
    have hn : ¬ (s.no_face_counter + 1 > 3) := by omega
    simp [detect_drowsiness, hn]
  · intro h
    have hy : s.no_face_counter + 1 > 3 := h
    simp [detect_drowsiness, hy]

open DrowsinessDetector in
/-- C6 witness: the initial state (first absent frame) keeps the score; the
state `s6b` (sixth consecutive absent frame) decays it and zeroes the
counters. -/
theorem claim_C6_witness :
    ((detect_drowsiness initState FrameInput.absent).1.drowsiness_score =
        initState.drowsiness_score ∧
     (detect_drowsiness initState FrameInput.absent).1.eye_closure_counter =
        initState.eye_closure_counter) ∧
    ((detect_drowsiness s6b FrameInput.absent).1.drowsiness_score =
        max 0 (s6b.drowsiness_score - 10) ∧
     (detect_drowsiness s6b FrameInput.absent).1.eye_closure_counter = 0 ∧
     (detect_drowsiness s6b FrameInput.absent).1.yawn_counter = 0) := by
  have h1 := (claim_C6 initState).1 (by norm_num [initState])
  have h2 := (claim_C6 s6b).2 (by norm_num [s6b, initState])
  exact ⟨⟨h1.1, h1.2.1⟩, ⟨h2.1, h2.2.2.1, h2.2.2.2⟩⟩

namespace DrowsinessDetector

lemma step_present_snd_yawning (s : DState) (ear mar : ℚ) :
    (detect_drowsiness s (FrameInput.present ear mar)).2.yawning =
      (yawn_section
        { (eye_section { s with face_detected := true, no_face_counter := 0 } ear).1 with
            last_eye_state :=
              if ear < Config.EAR_THRESHOLD then EyeState.CLOSED else EyeState.OPEN }
        ear mar).2 := rfl

lemma eye_section_score_cases (s : DState) (ear : ℚ) :
    ((eye_section s ear).2 = false ∧
       (eye_section s ear).1.drowsiness_score = s.drowsiness_score) ∨
    ((eye_section s ear).2 = true ∧
       (eye_section s ear).1.drowsiness_score =
         min Config.DROWSINESS_SCORE_MAX
           (s.drowsiness_score + Config.DROWSINESS_SCORE_INCREMENT_EYES)) := by
  simp only [eye_section]
  split_ifs <;> simp

lemma yawn_section_score_cases (s : DState) (ear mar : ℚ) :
    ((yawn_section s ear mar).2 = false ∧
       (yawn_section s ear mar).1.drowsiness_score = s.drowsiness_score) ∨
    ((yawn_section s ear mar).2 = true ∧
       (yawn_section s ear mar).1.drowsiness_score =
         min Config.DROWSINESS_SCORE_MAX
           (s.drowsiness_score + Config.DROWSINESS_SCORE_INCREMENT_YAWN)) := by
  simp only [yawn_section]
  split_ifs <;> simp

lemma decay_section_noop (s : DState) (a b : Bool) (h : a = true ∨ b = true) :
    (decay_section s a b).drowsiness_score = s.drowsiness_score := by
  unfold decay_section
  rcases h with h | h <;> rw [if_neg] <;> simp [h]

lemma decay_section_apply (s : DState) :
    (decay_section s false false).drowsiness_score =
      max 0 (s.drowsiness_score - Config.DROWSINESS_SCORE_DECAY) := by
  simp [decay_section]

end DrowsinessDetector

open DrowsinessDetector in
/-- C7: in any face-present frame where the debounced `eyes_closed` or
`yawning` flag is set, the score does not decrease that frame (given it is
within bounds, which every reachable state satisfies); when neither flag is
set the score is exactly `max 0 (score - SCORE_DECAY)` — decay and increase
never apply in the same frame. -/
theorem claim_C7 (s : DState) (ear mar : ℚ)
    (h0 : 0 ≤ s.drowsiness_score)
    (h1 : s.drowsiness_score ≤ Config.DROWSINESS_SCORE_MAX) :
    ((detect_drowsiness s (FrameInput.present ear mar)).2.eyes_closed = true ∨
     (detect_drowsiness s (FrameInput.present ear mar)).2.yawning = true →
       s.drowsiness_score ≤
         (detect_drowsiness s (FrameInput.present ear mar)).1.drowsiness_score) ∧
    ((detect_drowsiness s (FrameInput.present ear mar)).2.eyes_closed = false ∧
     (detect_drowsiness s (FrameInput.present ear mar)).2.yawning = false →
       (detect_drowsiness s (FrameInput.present ear mar)).1.drowsiness_score =
         max 0 (s.drowsiness_score - Config.DROWSINESS_SCORE_DECAY)) := by
  simp only [Config.DROWSINESS_SCORE_MAX] at h1
  have hMax : Config.DROWSINESS_SCORE_MAX = (100 : ℚ) := rfl
  have hIncE : Config.DROWSINESS_SCORE_INCREMENT_EYES = (5/2 : ℚ) := rfl
  have hIncY : Config.DROWSINESS_SCORE_INCREMENT_YAWN = (3/2 : ℚ) := rfl
  have hE := eye_section_score_cases { s with face_detected := true, no_face_counter := 0 } ear
  have hEb := eye_section_score { s with face_detected := true, no_face_counter := 0 } ear h0 h1
  have hY := yawn_section_score_cases
    { (eye_section { s with face_detected := true, no_face_counter := 0 } ear).1 with
        last_eye_state :=
          if ear < Config.EAR_THRESHOLD then EyeState.CLOSED else EyeState.OPEN }
    ear mar
  constructor
  · intro hflag
    rw [step_present_fst, level_section_score, decay_section_noop]
    · rcases hY with ⟨hy1, hy2⟩ | ⟨hy1, hy2⟩ <;>
        rcases hE with ⟨he1, he2⟩ | ⟨he1, he2⟩ <;>
        simp only [hMax, hIncE, hIncY] at * <;>
        rw [hy2] <;> simp only [he2] <;>
        first
          | linarith
          | (simp only [min_def]; split_ifs <;> linarith)
    · rcases hflag with hf | hf
      · left
        rw [step_present_snd_eyes] at hf
        exact hf
      · right
        rw [step_present_snd_yawning] at hf
        exact hf
  · intro hflag
    have hfe : (eye_section { s with face_detected := true, no_face_counter := 0 } ear).2
        = false := by
      rw [step_present_snd_eyes] at hflag
      exact hflag.1
    have hfy : (yawn_section
        { (eye_section { s with face_detected := true, no_face_counter := 0 } ear).1 with
            last_eye_state :=
              if ear < Config.EAR_THRESHOLD then EyeState.CLOSED else EyeState.OPEN }
        ear mar).2 = false := by
      rw [step_present_snd_yawning] at hflag
      exact hflag.2
    rw [step_present_fst, level_section_score, hfe, hfy, decay_section_apply]
    rcases hY with ⟨hy1, hy2⟩ | ⟨hy1, hy2⟩
    · rw [hy2]
      rcases hE with ⟨he1, he2⟩ | ⟨he1, he2⟩
      · simp only [he2]
      · rw [hfe] at he1
        exact absurd he1 (by simp)
    · rw [hfy] at hy1
      exact absurd hy1 (by simp)

open DrowsinessDetector in
/-- C7 witness: at state `s7` (29 closed frames already, score 50) a closed
frame sets `eyes_closed` and the score does not decrease; the bound
hypotheses hold at score 50. -/
theorem claim_C7_witness :
    s7.drowsiness_score ≤
      (detect_drowsiness s7 (FrameInput.present (15/100) 0)).1.drowsiness_score := by
  have h := claim_C7 s7 (15/100) 0
    (by norm_num [s7, initState])
    (by norm_num [s7, initState, Config.DROWSINESS_SCORE_MAX])
  refine h.1 (Or.inl ?_)
  have hc := step_closed s7 (15/100) 0 (by norm_num [Config.EAR_THRESHOLD])
  rw [hc.2.2]
  norm_num [s7, initState, Config.EAR_CONSEC_FRAMES]

namespace DrowsinessDetector

lemma eye_section_tyawn (s : DState) (ear : ℚ) :
    (eye_section s ear).1.total_yawns = s.total_yawns := by
  simp only [eye_section]
  split_ifs <;> rfl

lemma eye_section_tec_mono (s : DState) (ear : ℚ) :
    s.total_eye_closures ≤ (eye_section s ear).1.total_eye_closures := by
  simp only [eye_section]
  split_ifs <;> simp

lemma yawn_section_tyawn_mono (s : DState) (ear mar : ℚ) :
    s.total_yawns ≤ (yawn_section s ear mar).1.total_yawns := by
  simp only [yawn_section]
  split_ifs <;> simp

lemma step_totals_mono (s : DState) (i : FrameInput) :
    s.total_eye_closures ≤ (detect_drowsiness s i).1.total_eye_closures ∧
    s.total_yawns ≤ (detect_drowsiness s i).1.total_yawns := by
  cases i with
  | absent =>
      simp only [detect_drowsiness]
      split_ifs <;> simp
  | present ear mar =>
      constructor
      · rw [step_present_fst, level_section_tec, decay_section_tec, yawn_section_tec]
        simpa using eye_section_tec_mono
          { s with face_detected := true, no_face_counter := 0 } ear
      · rw [step_present_fst, level_section_tyawn, decay_section_tyawn]
        have hy := yawn_section_tyawn_mono
          { (eye_section { s with face_detected := true, no_face_counter := 0 } ear).1 with
              last_eye_state :=
                if ear < Config.EAR_THRESHOLD then EyeState.CLOSED else EyeState.OPEN }
          ear mar
        have he : ({ (eye_section
              { s with face_detected := true, no_face_counter := 0 } ear).1 with
            last_eye_state :=
              if ear < Config.EAR_THRESHOLD then EyeState.CLOSED
              else EyeState.OPEN } : DState).total_yawns = s.total_yawns := by
          simpa using eye_section_tyawn
            { s with face_detected := true, no_face_counter := 0 } ear
        rw [he] at hy
        exact hy

lemma run_totals_mono (l : List FrameInput) :
    ∀ s : DState,
      s.total_eye_closures ≤ (runD s l).total_eye_closures ∧
      s.total_yawns ≤ (runD s l).total_yawns := by
  induction l with
  | nil => intro s; simp [runD_nil]
  | cons i rest ih =>
      intro s
      have h1 := step_totals_mono s i
      have h2 := ih (detect_drowsiness s i).1
      rw [runD_cons]
      exact ⟨le_trans h1.1 h2.1, le_trans h1.2 h2.2⟩

end DrowsinessDetector

namespace PhoneDetector

lemma pstep_total_mono (s : PState) (n : ℕ) (hands : List (List (ℚ × ℚ)))
    (bbox : Option Bbox) :
    s.total_phone_detections ≤
      (detect_phone_usage s n hands bbox).1.total_phone_detections := by
  simp only [detect_phone_usage]
  split_ifs <;> simp

lemma runP_total_mono (l : List PFrame) :
    ∀ s : PState,
      s.total_phone_detections ≤ (runP s l).total_phone_detections := by
  induction l with
  | nil => intro s; simp [runP]
  | cons f rest ih =>
      intro s
      have h1 := pstep_total_mono s f.hands_detected f.hand_landmarks_list f.face_bbox
      have h2 := ih (detect_phone_usage s f.hands_detected f.hand_landmarks_list f.face_bbox).1
      exact le_trans h1 (by simpa [runP] using h2)

end PhoneDetector

/-- C8: the session counters `total_eye_closures`, `total_yawns` and
`total_phone_detections` are non-decreasing under any sequence of per-frame
updates from any state, and both `reset()` methods restore exactly the
initial state (score 0, all counters 0, alert level NORMAL). -/
theorem claim_C8 :
    (∀ (s : DrowsinessDetector.DState) (l : List DrowsinessDetector.FrameInput),
       s.total_eye_closures ≤ (DrowsinessDetector.runD s l).total_eye_closures ∧
       s.total_yawns ≤ (DrowsinessDetector.runD s l).total_yawns) ∧
    (∀ (p : PhoneDetector.PState) (l : List PhoneDetector.PFrame),
       p.total_phone_detections ≤ (PhoneDetector.runP p l).total_phone_detections) ∧
    (∀ s : DrowsinessDetector.DState,
       DrowsinessDetector.reset s = DrowsinessDetector.initState) ∧
    (∀ p : PhoneDetector.PState, PhoneDetector.reset p = PhoneDetector.initState) ∧
    DrowsinessDetector.initState.drowsiness_score = 0 ∧
    DrowsinessDetector.initState.total_eye_closures = 0 ∧
    DrowsinessDetector.initState.total_yawns = 0 ∧
    DrowsinessDetector.initState.alert_level = AlertLevel.NORMAL ∧
    PhoneDetector.initState.total_phone_detections = 0 := by
  refine ⟨?_, ?_, ?_, ?_, rfl, rfl, rfl, rfl, rfl⟩
  · intro s l
    exact DrowsinessDetector.run_totals_mono l s
  · intro p l
    exact PhoneDetector.runP_total_mono l p
  · intro s
    rfl
  · intro p
    rfl

/-- C5 counterexample: firing the phone alert (a synthetic DANGER event with
score 100 through the shared `AlertSystem`) from a fresh alert state at time
1 changes both the shared last-audio-fire time and the continuous-alarm
flag, so it does not leave the drowsiness cooldown state unchanged. -/
theorem claim_C5_counterexample :
    (DriverSafetyApp.phone_alert a0 1).1.last_audio_alert_time ≠
        a0.last_audio_alert_time ∧
    (DriverSafetyApp.phone_alert a0 1).1.continuous_alarm_active ≠
        a0.continuous_alarm_active := by
  norm_num [DriverSafetyApp.phone_alert, AlertSystem.trigger_alert, AlertSystem.play_alert,
    a0, Config.CONTINUOUS_ALARM_ENABLED, Config.CONTINUOUS_ALARM_THRESHOLD,
    Config.AUDIO_ALERT_COOLDOWN]

/-- C5 (amended): the phone alert goes through the same `AlertSystem` as a
synthetic max-severity (DANGER, score 100) event and takes the
continuous-alarm branch: whenever at least 0.5 s but less than the 1.0 s
beep cooldown has elapsed on the shared clock, the phone alert still sounds
(while a plain DANGER beep with a sub-threshold score would be silenced by
the cooldown), and it sets the continuous-alarm flag and overwrites the
shared last-audio-fire time — it is gated by its own 0.5 s interval on the
same clock, not independent of it. -/
theorem claim_C5 (s : AlertSystem.AState) (now score : ℚ)
    (h1 : s.audio_initialized = true) (h2 : s.alarm_sound = true)
    (h3 : 1/2 ≤ now - s.last_audio_alert_time)
    (h4 : now - s.last_audio_alert_time < Config.AUDIO_ALERT_COOLDOWN)
    (h5 : score < Config.CONTINUOUS_ALARM_THRESHOLD) :
    ((DriverSafetyApp.phone_alert s now).2 = true ∧
     (DriverSafetyApp.phone_alert s now).1.last_audio_alert_time = now ∧
     (DriverSafetyApp.phone_alert s now).1.continuous_alarm_active = true) ∧
    (AlertSystem.play_alert s AlertLevel.DANGER score now).2 = false := by
  have h5n : ¬ ((70:ℚ) ≤ score) := by
    simp only [Config.CONTINUOUS_ALARM_THRESHOLD] at h5
    exact not_le.mpr h5
  have h4n : now - s.last_audio_alert_time < 1 := by
    simpa [Config.AUDIO_ALERT_COOLDOWN] using h4
  constructor
  · cases hA : s.continuous_alarm_active <;>
      norm_num [DriverSafetyApp.phone_alert, AlertSystem.trigger_alert,
        AlertSystem.play_alert, h1, h2, h3, hA,
        Config.CONTINUOUS_ALARM_ENABLED, Config.CONTINUOUS_ALARM_THRESHOLD]
  · cases hA : s.continuous_alarm_active <;>
      norm_num [AlertSystem.play_alert, h1, h2, h4n, h5n, hA,
        Config.CONTINUOUS_ALARM_ENABLED, Config.AUDIO_ALERT_COOLDOWN,
        Config.CONTINUOUS_ALARM_THRESHOLD]

/-- C5 witness: at the fresh alert state `a0`, time 0.6 and drowsiness score
50, the phone alert sounds and mutates the shared state while the plain
beep path stays silent. -/
theorem claim_C5_witness :
    ((DriverSafetyApp.phone_alert a0 (3/5)).2 = true ∧
     (DriverSafetyApp.phone_alert a0 (3/5)).1.last_audio_alert_time = 3/5 ∧
     (DriverSafetyApp.phone_alert a0 (3/5)).1.continuous_alarm_active = true) ∧
    (AlertSystem.play_alert a0 AlertLevel.DANGER 50 (3/5)).2 = false :=
  claim_C5 a0 (3/5) 50 (by norm_num [a0]) (by norm_num [a0])
    (by norm_num [a0]) (by norm_num [a0, Config.AUDIO_ALERT_COOLDOWN])
    (by norm_num [Config.CONTINUOUS_ALARM_THRESHOLD])

namespace PhoneDetector

lemma euclidean_eval (p q : ℚ × ℚ) (r : ℚ) (h0 : 0 ≤ r) (h : sqDist p q = r^2) :
    euclidean p q = (r : ℝ) := by
  unfold euclidean
  rw [h]
  push_cast
  rw [Real.sqrt_sq (by exact_mod_cast h0)]

lemma near_nearHand : (is_hand_near_face nearHand (some box0)).1 = true := by
  unfold is_hand_near_face
  norm_num [nearHand, box0]
  rw [euclidean_eval _ _ (1/21) (by norm_num) (by norm_num [sqDist])]
  norm_num

lemma elevated_nearHand : is_hand_elevated nearHand (some box0) = true := by
  unfold is_hand_elevated
  simp only [nearHand, box0]
  rw [decide_eq_true_iff]
  norm_num

lemma vertical_nearHand : is_vertical_orientation nearHand = true := by
  unfold is_vertical_orientation
  norm_num [nearHand]

lemma near_farHand : (is_hand_near_face farHand (some box0)).1 = false := by
  unfold is_hand_near_face
  norm_num [farHand, box0]
  rw [euclidean_eval _ _ 4 (by norm_num) (by norm_num [sqDist])]
  norm_num

lemma elevated_farHand : is_hand_elevated farHand (some box0) = false := by
  unfold is_hand_elevated
  simp only [farHand, box0]
  rw [decide_eq_false_iff_not]
  norm_num

lemma vertical_farHand : is_vertical_orientation farHand = false := by
  unfold is_vertical_orientation
  norm_num [farHand]

lemma nearHand_isEmpty : nearHand.isEmpty = false := rfl

lemma farHand_isEmpty : farHand.isEmpty = false := rfl

lemma conf_two_nearHands : hands_confidence (some box0) [nearHand, nearHand] = 2 := by
  unfold hands_confidence hand_confidence_update
  simp only [List.foldl_cons, List.foldl_nil, nearHand_isEmpty, near_nearHand,
    elevated_nearHand, vertical_nearHand, Bool.false_eq_true, if_false, if_true]
  norm_num

lemma conf_one_nearHand : hands_confidence (some box0) [nearHand] = 1 := by
  unfold hands_confidence hand_confidence_update
  simp only [List.foldl_cons, List.foldl_nil, nearHand_isEmpty, near_nearHand,
    elevated_nearHand, vertical_nearHand, Bool.false_eq_true, if_false, if_true]
  norm_num

lemma conf_farHand : hands_confidence (some box0) [farHand] = 0 := by
  unfold hands_confidence hand_confidence_update
  simp only [List.foldl_cons, List.foldl_nil, farHand_isEmpty, near_farHand,
    elevated_farHand, vertical_farHand, Bool.false_eq_true, if_false]

end PhoneDetector

namespace PhoneDetector

lemma hand_confidence_update_bounds (bbox : Option Bbox) (conf : ℚ)
    (hand : List (ℚ × ℚ)) :
    conf ≤ hand_confidence_update bbox conf hand ∧
      hand_confidence_update bbox conf hand ≤ conf + 1 := by
  unfold hand_confidence_update
  split_ifs <;> constructor <;> linarith

lemma conf_foldl_bounds (bbox : Option Bbox) (hands : List (List (ℚ × ℚ))) :
    ∀ conf : ℚ,
      conf ≤ hands.foldl (hand_confidence_update bbox) conf ∧
      hands.foldl (hand_confidence_update bbox) conf ≤ conf + hands.length := by
  induction hands with
  | nil => intro conf; simp
  | cons h rest ih =>
      intro conf
      have hstep := hand_confidence_update_bounds bbox conf h
      have hrest := ih (hand_confidence_update bbox conf h)
      rw [List.foldl_cons]
      constructor
      · exact le_trans hstep.1 hrest.1
      · calc rest.foldl (hand_confidence_update bbox) (hand_confidence_update bbox conf h)
            ≤ hand_confidence_update bbox conf h + rest.length := hrest.2
          _ ≤ conf + 1 + rest.length := by linarith
          _ = conf + (h :: rest).length := by
              simp [List.length_cons]
              push_cast
              ring

lemma hands_confidence_bounds (bbox : Option Bbox) (hands : List (List (ℚ × ℚ))) :
    0 ≤ hands_confidence bbox hands ∧ hands_confidence bbox hands ≤ hands.length := by
  have h := conf_foldl_bounds bbox hands 0
  unfold hands_confidence
  constructor
  · exact h.1
  · simpa using h.2

end PhoneDetector

open PhoneDetector in
/-- C3 counterexample: with two hands both held at the face, each hand adds
its full weight sum 1.0 to the shared accumulator, so the reported per-frame
confidence is 2 — outside `[0, 1]`, and equal to the sum across hands rather
than the max across hands (a single such hand scores 1). -/
theorem claim_C3_counterexample :
    hands_confidence (some box0) [nearHand] = 1 ∧
    (detect_phone_usage initState 2 [nearHand, nearHand] (some box0)).2.confidence = 2 ∧
    ¬ ((detect_phone_usage initState 2 [nearHand, nearHand]
        (some box0)).2.confidence ≤ 1) := by
  have h2 : (detect_phone_usage initState 2 [nearHand, nearHand]
      (some box0)).2.confidence = 2 := by
    norm_num [detect_phone_usage, conf_two_nearHands, get_result, initState,
      Config.PHONE_DETECTION_THRESHOLD, Config.PHONE_CONSEC_FRAMES]
  refine ⟨conf_one_nearHand, h2, ?_⟩
  rw [h2]
  norm_num

open PhoneDetector in
/-- C3 (amended): per frame, each detected hand contributes an additive sum
of independently triggered weighted heuristics whose weights sum to 1.0, and
the overall per-frame confidence is the sum of those contributions over all
detected hands (not the max): it lies in `[0, n]` for `n` detected hands and
can exceed 1 when two or more hands trigger the heuristics. -/
theorem claim_C3 (s : PState) (n : ℕ) (hands : List (List (ℚ × ℚ)))
    (bbox : Option Bbox) :
    0 ≤ (detect_phone_usage s n hands bbox).2.confidence ∧
    (detect_phone_usage s n hands bbox).2.confidence ≤ hands.length := by
  have hb := hands_confidence_bounds bbox hands
  have hcases : (detect_phone_usage s n hands bbox).2.confidence = 0 ∨
      (detect_phone_usage s n hands bbox).2.confidence = hands_confidence bbox hands := by
    unfold detect_phone_usage
    by_cases h1 : n = 0 ∨ hands = []
    · simp [h1, get_result]
    · by_cases h2 : Config.PHONE_DETECTION_THRESHOLD ≤ hands_confidence bbox hands
      · by_cases h3 : Config.PHONE_CONSEC_FRAMES ≤ s.phone_detection_counter + 1
        · simp [h1, h2, h3, get_result]
        · simp [h1, h2, h3, get_result]
      · simp [h1, h2, get_result]
  rcases hcases with hc | hc <;> rw [hc]
  · exact ⟨le_refl 0, by positivity⟩
  · exact hb

open PhoneDetector in
/-- C10: when a phone-use session that has reached the dwell requirement
(`phone_detection_counter ≥ PHONE_CONSEC_FRAMES`) ends because zero hands are
detected, `total_phone_detections` is NOT incremented — counter, duration and
the detected flag are reset without completed-session accounting; the counter
is incremented exactly once only on the exit path where hands are present but
the confidence falls below `PHONE_DETECTION_THRESHOLD`. -/
theorem claim_C10 (s : PState) (hands : List (List (ℚ × ℚ))) (bbox : Option Bbox)
    (hc : Config.PHONE_CONSEC_FRAMES ≤ s.phone_detection_counter) :
    ((detect_phone_usage s 0 hands bbox).1.total_phone_detections =
        s.total_phone_detections ∧
     (detect_phone_usage s 0 hands bbox).1.phone_detection_counter = 0 ∧
     (detect_phone_usage s 0 hands bbox).1.current_phone_duration = 0 ∧
     (detect_phone_usage s 0 hands bbox).1.phone_detected = false) ∧
    (∀ n : ℕ, n ≠ 0 → hands ≠ [] →
       hands_confidence bbox hands < Config.PHONE_DETECTION_THRESHOLD →
       (detect_phone_usage s n hands bbox).1.total_phone_detections =
         s.total_phone_detections + 1 ∧
       (detect_phone_usage s n hands bbox).1.phone_detection_counter = 0) := by
  constructor
  · unfold detect_phone_usage
    simp
  · intro n hn hh hconf
    unfold detect_phone_usage
    have h1 : ¬ (n = 0 ∨ hands = []) := by
      rintro (h | h)
      · exact hn h
      · exact hh h
    have h2 : ¬ (Config.PHONE_DETECTION_THRESHOLD ≤ hands_confidence bbox hands) :=
      not_le.mpr hconf
    simp [h1, h2, hc]

open PhoneDetector in
/-- C10 witness: from `pS60` (dwell counter 60, 5 completed sessions) a
zero-hands frame keeps the session counter at 5, while a frame with one far
hand (confidence 0, below threshold) increments it to 6. -/
theorem claim_C10_witness :
    ((detect_phone_usage pS60 0 [] none).1.total_phone_detections = 5 ∧
     (detect_phone_usage pS60 0 [] none).1.phone_detection_counter = 0 ∧
     (detect_phone_usage pS60 0 [] none).1.current_phone_duration = 0 ∧
     (detect_phone_usage pS60 0 [] none).1.phone_detected = false) ∧
    (detect_phone_usage pS60 1 [farHand] (some box0)).1.total_phone_detections
      = 6 := by
  have hc : Config.PHONE_CONSEC_FRAMES ≤ pS60.phone_detection_counter := by
    norm_num [pS60, Config.PHONE_CONSEC_FRAMES]
  have h1 := (claim_C10 pS60 [] none hc).1
  have h2 := ((claim_C10 pS60 [farHand] (some box0) hc).2 1 (by norm_num)
    (by simp) (by rw [conf_farHand]; norm_num [Config.PHONE_DETECTION_THRESHOLD])).1
  constructor
  · simpa [pS60] using h1
  · simpa [pS60] using h2

open DrowsinessDetector PhoneDetector in
/-- C9 counterexample: eleven ordered mouth points (≥ 8, as the claim's
stated minimum) with nonzero mouth width 2, for which the claimed formula
gives 1.5 — yet `calculate_mouth_aspect_ratio` returns 0, because the code's
guard requires at least 14 points, not 8. -/
theorem claim_C9_counterexample :
    8 ≤ mar11.length ∧
    euclidean (mar11.getD 0 (0, 0)) (mar11.getD 1 (0, 0)) ≠ 0 ∧
    (euclidean (mar11.getD 2 (0, 0)) (mar11.getD 10 (0, 0)) +
       euclidean (mar11.getD 4 (0, 0)) (mar11.getD 8 (0, 0))) /
      (2 * euclidean (mar11.getD 0 (0, 0)) (mar11.getD 1 (0, 0))) = 3/2 ∧
    calculate_mouth_aspect_ratio mar11 = 0 ∧
    (3/2 : ℝ) ≠ 0 := by
  have hg0 : mar11.getD 0 ((0:ℚ), (0:ℚ)) = (0, 0) := by simp [mar11]
  have hg1 : mar11.getD 1 ((0:ℚ), (0:ℚ)) = (2, 0) := by simp [mar11]
  have hg2 : mar11.getD 2 ((0:ℚ), (0:ℚ)) = (0, 5) := by simp [mar11]
  have hg4 : mar11.getD 4 ((0:ℚ), (0:ℚ)) = (1, 5) := by simp [mar11]
  have hg8 : mar11.getD 8 ((0:ℚ), (0:ℚ)) = (1, 2) := by simp [mar11]
  have hg10 : mar11.getD 10 ((0:ℚ), (0:ℚ)) = (0, 2) := by simp [mar11]
  have hw : euclidean ((0:ℚ), (0:ℚ)) ((2:ℚ), (0:ℚ)) = ((2:ℚ) : ℝ) :=
    euclidean_eval _ _ 2 (by norm_num) (by norm_num [sqDist])
  have hv1 : euclidean ((0:ℚ), (5:ℚ)) ((0:ℚ), (2:ℚ)) = ((3:ℚ) : ℝ) :=
    euclidean_eval _ _ 3 (by norm_num) (by norm_num [sqDist])
  have hv2 : euclidean ((1:ℚ), (5:ℚ)) ((1:ℚ), (2:ℚ)) = ((3:ℚ) : ℝ) :=
    euclidean_eval _ _ 3 (by norm_num) (by norm_num [sqDist])
  refine ⟨by norm_num [mar11], ?_, ?_, ?_, by norm_num⟩
  · rw [hg0, hg1, hw]
    norm_num
  · rw [hg0, hg1, hg2, hg4, hg8, hg10, hw, hv1, hv2]
    norm_num
  · unfold calculate_mouth_aspect_ratio
    rw [if_pos (by norm_num [mar11])]

open DrowsinessDetector PhoneDetector in
/-- C9 (amended): `calculate_mouth_aspect_ratio` is a total function that
returns 0 for fewer than 14 points (the code's minimum, not 8) and 0 on zero
mouth width; given at least 14 points and nonzero width it returns the sum
of the two vertical lip-gap distances divided by twice the mouth width. -/
theorem claim_C9 (pts : List (ℚ × ℚ)) :
    (pts.length < 14 → calculate_mouth_aspect_ratio pts = 0) ∧
    (14 ≤ pts.length →
      (euclidean (pts.getD 0 (0, 0)) (pts.getD 1 (0, 0)) ≠ 0 →
        calculate_mouth_aspect_ratio pts =
          (euclidean (pts.getD 2 (0, 0)) (pts.getD 10 (0, 0)) +
             euclidean (pts.getD 4 (0, 0)) (pts.getD 8 (0, 0))) /
            (2 * euclidean (pts.getD 0 (0, 0)) (pts.getD 1 (0, 0)))) ∧
      (euclidean (pts.getD 0 (0, 0)) (pts.getD 1 (0, 0)) = 0 →
        calculate_mouth_aspect_ratio pts = 0)) := by
  constructor
  · intro h
    unfold calculate_mouth_aspect_ratio
    rw [if_pos h]
  · intro h
    have hn : ¬ (pts.length < 14) := not_lt.mpr h
    constructor
    · intro hwid
      simp only [calculate_mouth_aspect_ratio, if_neg hn]
      rw [if_neg hwid]
    · intro hwid
      simp only [calculate_mouth_aspect_ratio, if_neg hn]
      rw [if_pos hwid]

open DrowsinessDetector PhoneDetector in
/-- C9 witness: the 14-point mouth `mar14` (width 2, vertical gaps 3 and 3)
has MAR 1.5 through the formula branch. -/
theorem claim_C9_witness : calculate_mouth_aspect_ratio mar14 = 3/2 := by
  have hg0 : mar14.getD 0 ((0:ℚ), (0:ℚ)) = (0, 0) := by simp [mar14]
  have hg1 : mar14.getD 1 ((0:ℚ), (0:ℚ)) = (2, 0) := by simp [mar14]
  have hg2 : mar14.getD 2 ((0:ℚ), (0:ℚ)) = (0, 5) := by simp [mar14]
  have hg4 : mar14.getD 4 ((0:ℚ), (0:ℚ)) = (1, 5) := by simp [mar14]
  have hg8 : mar14.getD 8 ((0:ℚ), (0:ℚ)) = (1, 2) := by simp [mar14]
  have hg10 : mar14.getD 10 ((0:ℚ), (0:ℚ)) = (0, 2) := by simp [mar14]
  have hw : euclidean ((0:ℚ), (0:ℚ)) ((2:ℚ), (0:ℚ)) = ((2:ℚ) : ℝ) :=
    euclidean_eval _ _ 2 (by norm_num) (by norm_num [sqDist])
  have hv1 : euclidean ((0:ℚ), (5:ℚ)) ((0:ℚ), (2:ℚ)) = ((3:ℚ) : ℝ) :=
    euclidean_eval _ _ 3 (by norm_num) (by norm_num [sqDist])
  have hv2 : euclidean ((1:ℚ), (5:ℚ)) ((1:ℚ), (2:ℚ)) = ((3:ℚ) : ℝ) :=
    euclidean_eval _ _ 3 (by norm_num) (by norm_num [sqDist])
  have hwid : euclidean (mar14.getD 0 (0, 0)) (mar14.getD 1 (0, 0)) ≠ 0 := by
    rw [hg0, hg1, hw]
    norm_num
  have hform := ((claim_C9 mar14).2 (by norm_num [mar14])).1 hwid
  rw [hform, hg0, hg1, hg2, hg4, hg8, hg10, hw, hv1, hv2]
  norm_num
